import Mathlib

/-!
Verification of the WhatsApp relay service (whatssap-services).

The repository is a Node/Express bridge between a whatsapp-web.js client and a
Django backend.  This file gives a shallow embedding of the parts of the
program the claims are about:

* the message relay pipeline `processMessageAndSendToDjango`;
* the unread-message drain performed in the `ready` handler;
* the lifecycle signal handlers of the primary server (the file shipped with
  the Dockerfile, `src/unnamed/part_001`), modelled as a step function
  `stepP1` over an explicit server state, and the handlers of the hardened
  "FULL CODE v3" variant (`src/unnamed/part_000`, lines 678-950), modelled as
  `stepV3`;
* the broadcast endpoint `/relance-pub` with its phone normalization;
* the roster synchronizer `syncAllContacts`;
* the `/whatsapp-status` endpoint.

Network calls are represented by the data they would carry (an `Option`
webhook call, a list of send targets, an optional sync body); timers are
represented explicitly in the state (armed watchdog entries, scheduled
reconnection backoffs), since arming/disarming discipline is what the claims
are about.
-/

/-- An inbound message as seen by `processMessageAndSendToDjango`
(fields `msg.fromMe`, `msg.hasMedia`, `msg.type`, `msg.body`, `msg.from`;
`from` is a Lean keyword, so that field is called `sender`). -/
structure Msg where
  fromMe : Bool
  hasMedia : Bool
  type : String
  body : String
  sender : String
deriving DecidableEq, Repr

/-- The JSON body of the webhook POST to `DJANGO_API_URL`
(`{ sender_number, message_body }`). -/
structure WebhookCall where
  sender_number : String
  message_body : String
deriving DecidableEq, Repr

/-- JavaScript `String.prototype.trim`: remove leading and trailing
whitespace.  Defined on the character list so that it reduces in the kernel
(`String.trim` of core Lean is defined through `Substring` loops that do
not). -/
def jsTrim (s : String) : String :=
  String.mk (((s.data.dropWhile Char.isWhitespace).reverse.dropWhile
    Char.isWhitespace).reverse)

/-- The `typeMap` object of `processMessageAndSendToDjango`
(src/unnamed/part_001 lines 234-241): label lookup keyed by `msg.type`. -/
def typeMap (t : String) : Option String :=
  if t = "image" then some "Image"
  else if t = "audio" then some "Audio"
  else if t = "video" then some "Vidéo"
  else if t = "document" then some "Document"
  else if t = "ptt" then some "Voice Message"
  else if t = "sticker" then some "Sticker"
  else none

/-- The expression `typeMap[msg.type] || 'Other media'`. -/
def mediaLabel (t : String) : String :=
  (typeMap t).getD "Other media"

/-- The relay pipeline `processMessageAndSendToDjango`
(src/unnamed/part_001 lines 229-264, identically src/unnamed/part_000 lines
902-924).  The result is the webhook call attempted: `none` means the
function returns without attempting a POST, `some c` means exactly one POST
with body `c` is attempted (delivery failures are logged and dropped, which
does not change the attempted call). -/
def processMessageAndSendToDjango (msg : Msg) : Option WebhookCall :=
  if msg.fromMe then none
  else if msg.hasMedia then
    some ⟨msg.sender, mediaLabel msg.type⟩
  else
    let textMessage := jsTrim msg.body
    if textMessage = "" then none
    else some ⟨msg.sender, textMessage⟩

/-- C1: a self-originated message produces no webhook call; a text message
whose body trims to empty produces no webhook call; a media message is
relayed with the fixed label of its media kind (with unknown kinds mapped to
"Other media"); any other message yields exactly one webhook call carrying
the sender id and the trimmed text body. -/
theorem C1_relay_pipeline (msg : Msg) :
    (msg.fromMe = true → processMessageAndSendToDjango msg = none) ∧
    (msg.fromMe = false → msg.hasMedia = false → jsTrim msg.body = "" →
      processMessageAndSendToDjango msg = none) ∧
    (msg.fromMe = false → msg.hasMedia = true →
      processMessageAndSendToDjango msg = some ⟨msg.sender, mediaLabel msg.type⟩) ∧
    (msg.fromMe = false → msg.hasMedia = false → jsTrim msg.body ≠ "" →
      processMessageAndSendToDjango msg = some ⟨msg.sender, jsTrim msg.body⟩) ∧
    (msg.type ≠ "image" → msg.type ≠ "audio" → msg.type ≠ "video" →
      msg.type ≠ "document" → msg.type ≠ "ptt" → msg.type ≠ "sticker" →
      mediaLabel msg.type = "Other media") := by
  refine ⟨?_, ?_, ?_, ?_, ?_⟩
  · intro h; simp [processMessageAndSendToDjango, h]
  · intro h1 h2 h3; simp [processMessageAndSendToDjango, h1, h2, h3]
  · intro h1 h2; simp [processMessageAndSendToDjango, h1, h2]
  · intro h1 h2 h3; simp [processMessageAndSendToDjango, h1, h2, h3]
  · intro h1 h2 h3 h4 h5 h6
    simp [mediaLabel, typeMap, h1, h2, h3, h4, h5, h6]

/-- Witness for C1 at concrete messages: a self message is dropped, a
whitespace-only text is dropped, an unknown media kind is labelled
"Other media", and a plain text is relayed trimmed. -/
theorem C1_relay_pipeline_witness :
    processMessageAndSendToDjango ⟨true, false, "chat", "hello", "111@c.us"⟩ = none ∧
    processMessageAndSendToDjango ⟨false, false, "chat", "   ", "111@c.us"⟩ = none ∧
    processMessageAndSendToDjango ⟨false, true, "revoked", "", "111@c.us"⟩ =
      some ⟨"111@c.us", "Other media"⟩ ∧
    processMessageAndSendToDjango ⟨false, false, "chat", "  Hello ", "111@c.us"⟩ =
      some ⟨"111@c.us", "Hello"⟩ := by
  refine ⟨(C1_relay_pipeline _).1 rfl, ?_, ?_, ?_⟩
  · exact (C1_relay_pipeline _).2.1 rfl rfl (by decide)
  · have h := (C1_relay_pipeline ⟨false, true, "revoked", "", "111@c.us"⟩).2.2.1 rfl rfl
    have h2 := (C1_relay_pipeline ⟨false, true, "revoked", "", "111@c.us"⟩).2.2.2.2
      (by decide) (by decide) (by decide) (by decide) (by decide) (by decide)
    rw [h, h2]
  · have h := (C1_relay_pipeline ⟨false, false, "chat", "  Hello ", "111@c.us"⟩).2.2.2.1
      rfl rfl (by decide)
    rw [h]; decide

/-- A chat as used by the `ready` handler and by `syncAllContacts`: its
`chat.id.user`, `chat.name`, `chat.isGroup` flag, `chat.unreadCount`, and
its message history (oldest first), from which `fetchMessages` draws. -/
structure Chat where
  idUser : String
  name : String
  isGroup : Bool
  unreadCount : Nat
  messages : List Msg
deriving DecidableEq, Repr

/-- `chat.fetchMessages({ limit })`: the `limit` most recent messages of the
chat, in the order whatsapp-web.js returns them (oldest first). -/
def fetchMessages (chat : Chat) (limit : Nat) : List Msg :=
  chat.messages.drop (chat.messages.length - limit)

/-- One observable step of the unread drain: an invocation of
`processMessageAndSendToDjango` on a fetched message, or a `chat.sendSeen()`
call. -/
inductive DrainAction where
  | relayMsg (m : Msg)
  | sendSeen (chatId : String)
deriving DecidableEq, Repr

/-- The per-chat body of the `ready` handler's unread loop
(src/unnamed/part_001 lines 126-135): if `chat.unreadCount > 0`, fetch
`unreadCount` messages, relay each in order, then mark the chat seen. -/
def drainChat (chat : Chat) : List DrainAction :=
  if 0 < chat.unreadCount then
    (fetchMessages chat chat.unreadCount).map DrainAction.relayMsg ++
      [DrainAction.sendSeen chat.idUser]
  else []

/-- The whole unread drain of the `ready` handler: chats are processed
sequentially (`for (const chat of chats)`), so the action trace is the
concatenation of the per-chat traces. -/
def unreadDrain (chats : List Chat) : List DrainAction :=
  (chats.map drainChat).flatten

/-- C2: on a ready transition, every non-group chat with a positive unread
counter `N` (whose history holds at least `N` messages) has exactly `N`
most-recent messages fetched and relayed in source order, and its
`sendSeen` is issued strictly after all `N` relays; chats are processed
sequentially, so the chat's relay block and its trailing `sendSeen` appear
contiguously inside the global drain trace. -/
theorem C2_unread_drain (chats : List Chat) (c : Chat) (hmem : c ∈ chats)
    (_hgroup : c.isGroup = false) (hpos : 0 < c.unreadCount)
    (hlen : c.unreadCount ≤ c.messages.length) :
    (fetchMessages c c.unreadCount).length = c.unreadCount ∧
    drainChat c = (fetchMessages c c.unreadCount).map DrainAction.relayMsg ++
      [DrainAction.sendSeen c.idUser] ∧
    ∃ pre post, unreadDrain chats =
      pre ++ ((fetchMessages c c.unreadCount).map DrainAction.relayMsg ++
        [DrainAction.sendSeen c.idUser]) ++ post := by
  refine ⟨?_, ?_, ?_⟩
  · simp only [fetchMessages, List.length_drop]
    omega
  · simp [drainChat, hpos]
  · obtain ⟨l₁, l₂, rfl⟩ := List.append_of_mem hmem
    refine ⟨(l₁.map drainChat).flatten, (l₂.map drainChat).flatten, ?_⟩
    simp [unreadDrain, drainChat, hpos, List.append_assoc]

/-- Witness for C2 on a one-chat roster with one unread message: exactly one
message is fetched and the trace is that relay followed by `sendSeen`. -/
theorem C2_unread_drain_witness :
    (fetchMessages ⟨"222", "Bob", false, 1, [⟨false, false, "chat", "yo", "222@c.us"⟩]⟩
      1).length = 1 ∧
    drainChat ⟨"222", "Bob", false, 1, [⟨false, false, "chat", "yo", "222@c.us"⟩]⟩ =
      [DrainAction.relayMsg ⟨false, false, "chat", "yo", "222@c.us"⟩,
       DrainAction.sendSeen "222"] := by
  have h := C2_unread_drain
    [⟨"222", "Bob", false, 1, [⟨false, false, "chat", "yo", "222@c.us"⟩]⟩]
    ⟨"222", "Bob", false, 1, [⟨false, false, "chat", "yo", "222@c.us"⟩]⟩
    (by simp) rfl (by decide) (by decide)
  exact ⟨h.1, by rw [h.2.1]; decide⟩

/-- Lifecycle signals handled by the servers (the `change_state` handler only
logs and is omitted).  A `qr` signal carries the generated QR data-URL, or
`none` when `QRCode.toDataURL` reports an error. -/
inductive Event where
  | qr (url : Option String)
  | authenticated
  | authFailure
  | disconnected
  | ready
deriving DecidableEq, Repr

/-- The readiness watchdog delay: `setTimeout(..., 60000)`. -/
def watchdogDelayMs : Nat := 60000

/-- The reconnection backoff: `setTimeout(..., 5000)` in the `disconnected`
handler. -/
def reconnectBackoffMs : Nat := 5000

/-- The delay before re-initialization after a forced teardown:
`setTimeout(() => client.initialize(), 2000)`. -/
def reinitDelayMs : Nat := 2000

/-- The mutable module-level state of a server, with timers made explicit:
`armedWatchdogs` lists the readiness-watchdog timers currently armed (timer
id and delay) — `connectionTimeout` holds only the id of the most recently
stored handle, exactly like the JS variable — and `scheduledReconnects`
lists the backoff delays of reconnection attempts currently scheduled. -/
structure WAState where
  isConnected : Bool
  isClientReady : Bool
  isAuthenticated : Bool
  lastQrCode : Option String
  reconnecting : Bool
  connectionTimeout : Option Nat
  syncIntervalArmed : Bool
  authRecoveryTriggered : Bool
  armedWatchdogs : List (Nat × Nat)
  scheduledReconnects : List Nat
  nextTimerId : Nat
deriving DecidableEq, Repr

/-- The state at module load: all flags false, no QR, no timers. -/
def initState : WAState :=
  ⟨false, false, false, none, false, none, false, false, [], [], 0⟩

/-- `if (connectionTimeout) clearTimeout(connectionTimeout)`: the timer whose
id is held in `connectionTimeout` stops being armed; clearing an absent or
stale handle is a no-op. -/
def clearTracked (s : WAState) : List (Nat × Nat) :=
  match s.connectionTimeout with
  | some id => s.armedWatchdogs.filter (fun p => p.1 != id)
  | none => s.armedWatchdogs

/-- One signal-handler step of the primary server (src/unnamed/part_001
lines 52-141).  Its `authenticated` handler stores a fresh watchdog into
`connectionTimeout` WITHOUT clearing the previous one (line 69); its
`auth_failure` handler resets flags but does not touch the watchdog (lines
76-81); `ready` and `disconnected` clear the tracked watchdog; the
`disconnected` handler schedules one reconnection after 5s iff
`reconnecting` is not already set (lines 92-99). -/
def stepP1 (s : WAState) : Event → WAState
  | .qr url =>
      match url with
      | some u =>
          { s with lastQrCode := some u, isConnected := false,
                   isAuthenticated := false }
      | none => { s with lastQrCode := none }
  | .authenticated =>
      { s with isAuthenticated := true,
               armedWatchdogs := (s.nextTimerId, watchdogDelayMs) :: s.armedWatchdogs,
               connectionTimeout := some s.nextTimerId,
               nextTimerId := s.nextTimerId + 1 }
  | .authFailure =>
      { s with isConnected := false, isAuthenticated := false, lastQrCode := none }
  | .disconnected =>
      let s1 := { s with isConnected := false, isClientReady := false,
                         isAuthenticated := false,
                         armedWatchdogs := clearTracked s,
                         syncIntervalArmed := false }
      if s1.reconnecting then s1
      else { s1 with reconnecting := true,
                     scheduledReconnects :=
                       s1.scheduledReconnects ++ [reconnectBackoffMs] }
  | .ready =>
      { s with isConnected := true, isClientReady := true, isAuthenticated := true,
               lastQrCode := none, armedWatchdogs := clearTracked s,
               syncIntervalArmed := true }

/-- Run the primary server's handlers from a given state. -/
def runP1From (s : WAState) (evs : List Event) : WAState :=
  evs.foldl stepP1 s

/-- Run the primary server's handlers from the initial state. -/
def runP1 (evs : List Event) : WAState :=
  runP1From initState evs

/-- An observable action of a watchdog-expiry callback: the log warning, the
forced teardown (`safeDestroy`), or scheduling `client.initialize` after a
delay. -/
inductive RecoveryAction where
  | warn
  | destroyClient
  | scheduleInit (delayMs : Nat)
deriving DecidableEq, Repr

/-- The 60s watchdog callback armed by part_001's `authenticated` handler
(lines 69-73): when it fires with the client still not ready it only logs a
warning — no teardown and no re-initialization. -/
def watchdogCallbackP1 (s : WAState) : List RecoveryAction :=
  if s.isClientReady then [] else [RecoveryAction.warn]

/-- `resetFlags()` of the hardened v3 variant (src/unnamed/part_000 lines
752-760): clear all flags and the QR, clear and null the watchdog handle,
and cancel the sync interval. -/
def resetFlags (s : WAState) : WAState :=
  { s with isConnected := false, isClientReady := false, isAuthenticated := false,
           lastQrCode := none, authRecoveryTriggered := false,
           armedWatchdogs := clearTracked s, connectionTimeout := none,
           syncIntervalArmed := false }

/-- One signal-handler step of the hardened "FULL CODE v3" variant
(src/unnamed/part_000 lines 763-849).  Its `authenticated` handler clears
the previous watchdog before arming a new one (line 782); `auth_failure`
and `disconnected` call `resetFlags` (clearing the watchdog); `ready`
clears and nulls the watchdog. -/
def stepV3 (s : WAState) : Event → WAState
  | .qr url =>
      match url with
      | some u =>
          { s with lastQrCode := some u, isConnected := false,
                   isAuthenticated := false }
      | none => { s with lastQrCode := none }
  | .authenticated =>
      { s with isAuthenticated := true, authRecoveryTriggered := false,
               armedWatchdogs := (s.nextTimerId, watchdogDelayMs) :: clearTracked s,
               connectionTimeout := some s.nextTimerId,
               nextTimerId := s.nextTimerId + 1 }
  | .authFailure => resetFlags s
  | .disconnected =>
      let s1 := resetFlags s
      if s1.reconnecting then s1
      else { s1 with reconnecting := true,
                     scheduledReconnects :=
                       s1.scheduledReconnects ++ [reconnectBackoffMs] }
  | .ready =>
      { s with isConnected := true, isClientReady := true, isAuthenticated := true,
               lastQrCode := none, armedWatchdogs := clearTracked s,
               connectionTimeout := none, authRecoveryTriggered := false,
               syncIntervalArmed := true }

/-- Run the v3 variant's handlers from the initial state. -/
def runV3 (evs : List Event) : WAState :=
  evs.foldl stepV3 initState

/-- The 60s watchdog callback of the v3 variant (part_000 lines 783-791):
when it fires with the client not ready and no recovery already triggered,
it marks the recovery triggered, tears the client down and schedules
`client.initialize` after 2s. -/
def watchdogCallbackV3 (s : WAState) : WAState × List RecoveryAction :=
  if !s.isClientReady && !s.authRecoveryTriggered then
    ({ s with authRecoveryTriggered := true },
     [RecoveryAction.warn, RecoveryAction.destroyClient,
      RecoveryAction.scheduleInit reinitDelayMs])
  else (s, [])

/-- Helper invariant of the v3 variant: the armed watchdogs are either none,
or exactly the one whose id is held in `connectionTimeout`. -/
def watchdogInv (s : WAState) : Prop :=
  s.armedWatchdogs = [] ∨
    ∃ id, s.connectionTimeout = some id ∧
      s.armedWatchdogs = [(id, watchdogDelayMs)]

/-- Under the invariant, clearing the tracked watchdog disarms everything. -/
theorem clearTracked_eq_nil {s : WAState} (h : watchdogInv s) :
    clearTracked s = [] := by
  rcases h with h | ⟨id, hconn, harmed⟩
  · unfold clearTracked
    cases hc : s.connectionTimeout <;> simp [h]
  · simp [clearTracked, hconn, harmed]

/-- Every v3 handler preserves the watchdog invariant. -/
theorem stepV3_watchdogInv {s : WAState} (h : watchdogInv s) (e : Event) :
    watchdogInv (stepV3 s e) := by
  cases e with
  | qr url =>
      cases url <;>
        [exact h.imp id (fun ⟨i, h1, h2⟩ => ⟨i, h1, h2⟩);
         exact h.imp id (fun ⟨i, h1, h2⟩ => ⟨i, h1, h2⟩)]
  | authenticated =>
      refine Or.inr ⟨s.nextTimerId, rfl, ?_⟩
      simp [stepV3, clearTracked_eq_nil h]
  | authFailure =>
      exact Or.inl (by simp [stepV3, resetFlags, clearTracked_eq_nil h])
  | disconnected =>
      simp only [stepV3]
      split <;> exact Or.inl (by simp [resetFlags, clearTracked_eq_nil h])
  | ready =>
      exact Or.inl (by simp [stepV3, clearTracked_eq_nil h])

/-- The invariant holds in every reachable state of the v3 variant. -/
theorem runV3_watchdogInv (evs : List Event) : watchdogInv (runV3 evs) := by
  suffices h : ∀ (s : WAState), watchdogInv s →
      watchdogInv (evs.foldl stepV3 s) from
    h initState (Or.inl rfl)
  induction evs with
  | nil => exact fun s hs => hs
  | cons e rest ih => exact fun s hs => ih _ (stepV3_watchdogInv hs e)

/-- C3 counterexample (primary server, src/unnamed/part_001): after two
`authenticated` signals with no intervening `ready`, TWO watchdog timers are
armed concurrently — the handler overwrites `connectionTimeout` without
clearing the previous timer — and an `auth_failure` after `authenticated`
leaves the watchdog armed, so that transition does not disarm it. -/
theorem C3_watchdog_counterexample :
    (runP1 [Event.authenticated, Event.authenticated]).armedWatchdogs.length = 2 ∧
    (runP1 [Event.authenticated, Event.authFailure]).armedWatchdogs =
      [(0, watchdogDelayMs)] := by
  decide

/-- C3 amended: in the hardened v3 variant (src/unnamed/part_000 lines
763-849) at most one readiness watchdog is armed at any reachable state —
`authenticated` clears the previous watchdog before arming a new one — and
each of `ready`, `auth_failure` and `disconnected` disarms it completely.
In the primary server (src/unnamed/part_001) this fails: repeated
`authenticated` leaves two watchdogs armed and `auth_failure` does not
disarm (see the counterexample). -/
theorem C3_watchdog_amended (evs : List Event) :
    (runV3 evs).armedWatchdogs.length ≤ 1 ∧
    (stepV3 (runV3 evs) Event.ready).armedWatchdogs = [] ∧
    (stepV3 (runV3 evs) Event.authFailure).armedWatchdogs = [] ∧
    (stepV3 (runV3 evs) Event.disconnected).armedWatchdogs = [] := by
  have hinv := runV3_watchdogInv evs
  refine ⟨?_, ?_, ?_, ?_⟩
  · rcases hinv with h | ⟨id, _, harmed⟩
    · simp [h]
    · simp [harmed]
  · simp [stepV3, clearTracked_eq_nil hinv]
  · simp [stepV3, resetFlags, clearTracked_eq_nil hinv]
  · simp only [stepV3]
    split <;> simp [resetFlags, clearTracked_eq_nil hinv]

/-- C4 counterexample (primary server, src/unnamed/part_001 lines 69-73):
when the 60s watchdog fires with the client not yet ready — here after a
single `authenticated` signal — the callback only logs a warning; it
performs no teardown and schedules no re-initialization. -/
theorem C4_watchdog_expiry_counterexample :
    watchdogCallbackP1 (runP1 [Event.authenticated]) = [RecoveryAction.warn] ∧
    RecoveryAction.destroyClient ∉ watchdogCallbackP1 (runP1 [Event.authenticated]) ∧
    RecoveryAction.scheduleInit reinitDelayMs ∉
      watchdogCallbackP1 (runP1 [Event.authenticated]) := by
  decide

/-- C4 amended: in the hardened v3 variant (src/unnamed/part_000 lines
783-791), when the 60-second watchdog armed by `authenticated` expires with
the client not ready (and no recovery already triggered), the callback
tears the client down (`safeDestroy`) and schedules `client.initialize`
after 2s; and the `authenticated` handler indeed arms a 60000 ms watchdog.
The primary server's watchdog only logs a warning (see the
counterexample). -/
theorem C4_watchdog_expiry_amended (s : WAState)
    (h1 : s.isClientReady = false) (h2 : s.authRecoveryTriggered = false) :
    (watchdogCallbackV3 s).2 =
      [RecoveryAction.warn, RecoveryAction.destroyClient,
       RecoveryAction.scheduleInit reinitDelayMs] ∧
    (stepV3 s Event.authenticated).armedWatchdogs.head? =
      some (s.nextTimerId, watchdogDelayMs) := by
  constructor
  · simp [watchdogCallbackV3, h1, h2]
  · simp [stepV3]

/-- Witness for the amended C4 at the initial state. -/
theorem C4_watchdog_expiry_amended_witness :
    (watchdogCallbackV3 initState).2 =
      [RecoveryAction.warn, RecoveryAction.destroyClient,
       RecoveryAction.scheduleInit reinitDelayMs] ∧
    (stepV3 initState Event.authenticated).armedWatchdogs.head? =
      some (initState.nextTimerId, watchdogDelayMs) :=
  C4_watchdog_expiry_amended initState rfl rfl

/-- Helper: once `reconnecting` is set, a further `disconnected` signal
leaves the scheduled reconnections unchanged and the flag set. -/
theorem stepP1_disconnected_of_reconnecting {t : WAState}
    (ht : t.reconnecting = true) :
    (stepP1 t Event.disconnected).scheduledReconnects = t.scheduledReconnects ∧
    (stepP1 t Event.disconnected).reconnecting = true := by
  simp [stepP1, ht]

/-- Helper: a whole burst of `disconnected` signals arriving while
`reconnecting` is set schedules nothing. -/
theorem runP1From_disconnected_burst_of_reconnecting (n : Nat) :
    ∀ t : WAState, t.reconnecting = true →
      (runP1From t (List.replicate n Event.disconnected)).scheduledReconnects =
        t.scheduledReconnects ∧
      (runP1From t (List.replicate n Event.disconnected)).reconnecting = true := by
  induction n with
  | zero => exact fun t ht => ⟨rfl, ht⟩
  | succ m ih =>
      intro t ht
      have hstep := stepP1_disconnected_of_reconnecting ht
      have hrec := ih (stepP1 t Event.disconnected) hstep.2
      simp only [List.replicate_succ, runP1From, List.foldl_cons] at hrec ⊢
      exact ⟨hrec.1.trans hstep.1, hrec.2⟩

/-- C5: from a state with no reconnection in flight, a burst of
`disconnected` signals schedules exactly one reconnection attempt with the
fixed 5-second backoff: the first signal sets `reconnecting` and appends one
scheduled attempt, and every further signal of the burst schedules nothing
because the flag stays set for the duration. -/
theorem C5_reconnect_guard (s : WAState) (n : Nat)
    (h : s.reconnecting = false) :
    (stepP1 s Event.disconnected).reconnecting = true ∧
    (runP1From s (List.replicate (n + 1) Event.disconnected)).scheduledReconnects =
      s.scheduledReconnects ++ [reconnectBackoffMs] ∧
    (runP1From s (List.replicate (n + 1) Event.disconnected)).reconnecting = true := by
  have hfirst1 : (stepP1 s Event.disconnected).reconnecting = true := by
    simp [stepP1, h]
  have hfirst2 : (stepP1 s Event.disconnected).scheduledReconnects =
      s.scheduledReconnects ++ [reconnectBackoffMs] := by
    simp [stepP1, h]
  have hrest := runP1From_disconnected_burst_of_reconnecting n
    (stepP1 s Event.disconnected) hfirst1
  refine ⟨hfirst1, ?_, ?_⟩
  · simp only [List.replicate_succ, runP1From, List.foldl_cons] at hrest ⊢
    exact hrest.1.trans hfirst2
  · simp only [List.replicate_succ, runP1From, List.foldl_cons] at hrest ⊢
    exact hrest.2

/-- Witness for C5: a burst of three `disconnected` signals from the initial
state schedules exactly one 5s reconnection attempt. -/
theorem C5_reconnect_guard_witness :
    (stepP1 initState Event.disconnected).reconnecting = true ∧
    (runP1From initState (List.replicate 3 Event.disconnected)).scheduledReconnects =
      [reconnectBackoffMs] ∧
    (runP1From initState (List.replicate 3 Event.disconnected)).reconnecting = true := by
  have h := C5_reconnect_guard initState 2 rfl
  simpa using h

/-- The digit-stripping step `number.replace(/\D/g, "")` (`\D` is exactly
"not 0-9"). -/
def stripNonDigits (number : String) : String :=
  String.mk (number.data.filter Char.isDigit)

/-- JavaScript `String.prototype.endsWith`: the last `|t|` characters of `s`
equal `t` (false when `s` is shorter than `t`). -/
def jsEndsWith (s t : String) : Bool :=
  s.data.drop (s.data.length - t.data.length) == t.data

/-- The per-recipient normalization of `/relance-pub` (src/unnamed/part_001
lines 301-302): strip non-digit characters, then append "@c.us" unless the
result already ends with it. -/
def normalizePhone (number : String) : String :=
  let phone := stripNonDigits number
  if jsEndsWith phone "@c.us" then phone else phone ++ "@c.us"

/-- Helper: a digits-only string never ends with "@c.us", so the
already-suffixed branch of the normalization is unreachable. -/
theorem jsEndsWith_stripNonDigits (number : String) :
    jsEndsWith (stripNonDigits number) "@c.us" = false := by
  rcases hb : jsEndsWith (stripNonDigits number) "@c.us" with _ | _
  · rfl
  · exfalso
    have heq : (stripNonDigits number).data.drop
        ((stripNonDigits number).data.length - "@c.us".data.length) =
        "@c.us".data := by
      have := hb
      simpa [jsEndsWith] using this
    have hmem : '@' ∈ (stripNonDigits number).data.drop
        ((stripNonDigits number).data.length - "@c.us".data.length) := by
      rw [heq]; decide
    have hmem2 : '@' ∈ number.data.filter Char.isDigit :=
      List.drop_subset _ _ hmem
    have : Char.isDigit '@' = true := (List.mem_filter.mp hmem2).2
    exact absurd this (by decide)

/-- C10: for every recipient string, the computed send target is exactly its
digit characters followed by "@c.us"; the suffix-already-present branch is
unreachable (stripping removed any '@'), so the suffix is appended
unconditionally, and an input with no digits normalizes to just "@c.us". -/
theorem C10_normalization_unconditional (number : String) :
    normalizePhone number = stripNonDigits number ++ "@c.us" ∧
    jsEndsWith (stripNonDigits number) "@c.us" = false ∧
    (stripNonDigits number = "" → normalizePhone number = "@c.us") := by
  have h := jsEndsWith_stripNonDigits number
  refine ⟨?_, h, ?_⟩
  · simp [normalizePhone, h]
  · intro h0
    simp only [normalizePhone, h0]
    decide

/-- Witness for C10: an input with no digits (even one already carrying the
suffix) normalizes to just "@c.us". -/
theorem C10_normalization_unconditional_witness :
    normalizePhone "abc+@c.us" = "@c.us" :=
  (C10_normalization_unconditional "abc+@c.us").2.2 (by decide)

/-- C6 counterexample: the two recipients of the spec's broadcast example do
NOT normalize to the same canonical address — the local-format number keeps
its leading 0 and the international one keeps its country code, so the two
send targets differ. -/
theorem C6_broadcast_normalization_counterexample :
    normalizePhone "0612345678" = "0612345678@c.us" ∧
    normalizePhone "+212612345678@c.us" = "212612345678@c.us" ∧
    normalizePhone "0612345678" ≠ normalizePhone "+212612345678@c.us" := by
  decide

/-- The check `!message?.trim()`: true when the message field is absent or
trims to the empty string. -/
def messageMissing : Option String → Bool
  | none => true
  | some m => jsTrim m == ""

/-- The check `!Array.isArray(contacts) || contacts.length === 0` (a missing
or non-array contacts field is modelled as `none`). -/
def contactsMissing : Option (List String) → Bool
  | none => true
  | some cs => cs.isEmpty

/-- The send loop of `/relance-pub` (src/unnamed/part_001 lines 300-311):
returns (sent, failed, targets) — `sent` and `failed` partition the raw
recipients in input order, and `targets` is the ordered list of normalized
addresses passed to `client.sendMessage`.  `ok` tells whether the external
send succeeds for a given normalized address. -/
def broadcastLoop (ok : String → Bool) : List String →
    List String × List String × List String
  | [] => ([], [], [])
  | number :: rest =>
      let phone := normalizePhone number
      let r := broadcastLoop ok rest
      if ok phone then (number :: r.1, r.2.1, phone :: r.2.2)
      else (r.1, number :: r.2.1, phone :: r.2.2)

/-- The `/relance-pub` response: a 400 client error, or the final partition
with its counts. -/
inductive BroadcastResponse where
  | badRequest (message : String)
  | finished (sentCount failedCount : Nat) (sent failed : List String)
deriving DecidableEq, Repr

/-- The `/relance-pub` handler (src/unnamed/part_001 lines 293-313):
validate, then send to each contact sequentially.  The second component is
the ordered list of `client.sendMessage` targets attempted ([] in the
rejection case: no send is attempted). -/
def relancePub (ok : String → Bool) (message : Option String)
    (contacts : Option (List String)) : BroadcastResponse × List String :=
  if messageMissing message || contactsMissing contacts then
    (BroadcastResponse.badRequest "Message and contacts required", [])
  else
    let r := broadcastLoop ok (contacts.getD [])
    (BroadcastResponse.finished r.1.length r.2.1.length r.1 r.2.1, r.2.2)

/-- Helper: the send loop computes the sent/failed filters of the input list
and attempts exactly one normalized send per recipient, in input order. -/
theorem broadcastLoop_spec (ok : String → Bool) (cs : List String) :
    (broadcastLoop ok cs).1 = cs.filter (fun n => ok (normalizePhone n)) ∧
    (broadcastLoop ok cs).2.1 = cs.filter (fun n => !ok (normalizePhone n)) ∧
    (broadcastLoop ok cs).2.2 = cs.map normalizePhone := by
  induction cs with
  | nil => exact ⟨rfl, rfl, rfl⟩
  | cons n rest ih =>
      rcases hok : ok (normalizePhone n) with _ | _ <;>
        simp [broadcastLoop, hok, ih.1, ih.2.1, ih.2.2, List.filter_cons]

/-- C6 amended: both example recipients are normalized to the canonical
suffixed form (their digit characters followed by "@c.us") and two
independent send attempts are made — but the two canonical addresses
DIFFER ("0612345678@c.us" vs "212612345678@c.us"), since the normalization
does not convert the local-format number to international form (see the
counterexample). -/
theorem C6_broadcast_normalization_amended (ok : String → Bool) :
    (relancePub ok (some "Hi") (some ["0612345678", "+212612345678@c.us"])).2 =
      ["0612345678@c.us", "212612345678@c.us"] ∧
    (relancePub ok (some "Hi") (some ["0612345678", "+212612345678@c.us"])).2.length
      = 2 := by
  have hcond : (messageMissing (some "Hi") ||
      contactsMissing (some ["0612345678", "+212612345678@c.us"])) = false := by
    decide
  have hspec := (broadcastLoop_spec ok ["0612345678", "+212612345678@c.us"]).2.2
  have htar : (relancePub ok (some "Hi")
      (some ["0612345678", "+212612345678@c.us"])).2 =
      ["0612345678@c.us", "212612345678@c.us"] := by
    simp only [relancePub, hcond, Bool.false_eq_true, if_false, Option.getD_some]
    rw [hspec]
    decide
  exact ⟨htar, by rw [htar]; rfl⟩


/-- C7: a missing/whitespace-only message or a missing/empty contact list is
rejected with a client error and no send is attempted; otherwise the handler
attempts one normalized send per recipient, sequentially in input order,
classifies each recipient independently, and returns the full partition:
sent and failed are the success/failure filters of the input list, every
recipient lands in exactly one of them (the counts, which are the lists'
lengths, sum to the number of recipients). -/
theorem C7_broadcast_partition (ok : String → Bool) (message : Option String)
    (contacts : Option (List String)) (cs : List String) :
    ((messageMissing message || contactsMissing contacts) = true →
      relancePub ok message contacts =
        (BroadcastResponse.badRequest "Message and contacts required", [])) ∧
    (messageMissing message = false → contactsMissing (some cs) = false →
      relancePub ok message (some cs) =
        (BroadcastResponse.finished
          (cs.filter (fun n => ok (normalizePhone n))).length
          (cs.filter (fun n => !ok (normalizePhone n))).length
          (cs.filter (fun n => ok (normalizePhone n)))
          (cs.filter (fun n => !ok (normalizePhone n))),
         cs.map normalizePhone) ∧
      (cs.filter (fun n => ok (normalizePhone n))).length +
        (cs.filter (fun n => !ok (normalizePhone n))).length = cs.length) := by
  constructor
  · intro h
    simp [relancePub, h]
  · intro h1 h2
    have hspec := broadcastLoop_spec ok cs
    constructor
    · have hresp : relancePub ok message (some cs) =
          (BroadcastResponse.finished (broadcastLoop ok cs).1.length
            (broadcastLoop ok cs).2.1.length (broadcastLoop ok cs).1
            (broadcastLoop ok cs).2.1, (broadcastLoop ok cs).2.2) := by
        simp [relancePub, h1, h2]
      rw [hresp, hspec.1, hspec.2.1, hspec.2.2]
    · have hperm := List.filter_append_perm (fun n => ok (normalizePhone n)) cs
      have hlen := hperm.length_eq
      simpa [List.length_append] using hlen

/-- Witness for C7: a whitespace-only message is rejected with no send
attempt, and a two-recipient broadcast where exactly the first send succeeds
returns the partition (1 sent, 1 failed) with both targets attempted. -/
theorem C7_broadcast_partition_witness :
    relancePub (fun p => p == "0612345678@c.us") (some "  ")
      (some ["0612345678"]) =
      (BroadcastResponse.badRequest "Message and contacts required", []) ∧
    relancePub (fun p => p == "0612345678@c.us") (some "Hi")
      (some ["0612345678", "+212612345678@c.us"]) =
      (BroadcastResponse.finished 1 1 ["0612345678"] ["+212612345678@c.us"],
       ["0612345678@c.us", "212612345678@c.us"]) := by
  constructor
  · exact (C7_broadcast_partition (fun p => p == "0612345678@c.us") (some "  ")
      (some ["0612345678"]) []).1 (by decide)
  · have h := (C7_broadcast_partition (fun p => p == "0612345678@c.us") (some "Hi")
      (some ["0612345678", "+212612345678@c.us"])
      ["0612345678", "+212612345678@c.us"]).2 (by decide) (by decide)
    rw [h.1]
    decide

/-- A contact record `{ number, direction: 'sync' }` pushed by the roster
synchronizer. -/
structure ContactRecord where
  number : String
  direction : String
deriving DecidableEq, Repr

/-- `syncAllContacts` (src/unnamed/part_001 lines 319-335): enumerate chats,
filter out groups, map each to a record, and POST the whole list once when
non-empty.  The result is the body of the single backend POST, `none` when
no call is made. -/
def syncAllContacts (chats : List Chat) : Option (List ContactRecord) :=
  let contacts := (chats.filter (fun c => !c.isGroup)).map
    (fun c => (⟨c.idUser, "sync"⟩ : ContactRecord))
  if 0 < contacts.length then some contacts else none

/-- Helper: the synchronizer's result as a case split on the filtered
roster. -/
theorem syncAllContacts_eq (chats : List Chat) :
    syncAllContacts chats =
      if chats.filter (fun c => !c.isGroup) = [] then none
      else some ((chats.filter (fun c => !c.isGroup)).map
        (fun c => (⟨c.idUser, "sync"⟩ : ContactRecord))) := by
  rcases h : chats.filter (fun c => !c.isGroup) with _ | ⟨c, rest⟩ <;>
    simp [syncAllContacts, h]

/-- C8: every roster sync run excludes exactly the group chats, maps each
remaining chat to `{number, direction: "sync"}`, and pushes the whole list
in a single backend POST; when the filtered list is empty no backend call is
made. -/
theorem C8_roster_sync (chats : List Chat) :
    (chats.filter (fun c => !c.isGroup) = [] → syncAllContacts chats = none) ∧
    (chats.filter (fun c => !c.isGroup) ≠ [] →
      syncAllContacts chats =
        some ((chats.filter (fun c => !c.isGroup)).map
          (fun c => (⟨c.idUser, "sync"⟩ : ContactRecord)))) ∧
    (∀ body, syncAllContacts chats = some body →
      (∀ r ∈ body, r.direction = "sync") ∧
      body.map ContactRecord.number =
        (chats.filter (fun c => !c.isGroup)).map Chat.idUser) := by
  have heq := syncAllContacts_eq chats
  refine ⟨?_, ?_, ?_⟩
  · intro h; rw [heq, if_pos h]
  · intro h; rw [heq, if_neg h]
  · intro body hbody
    rw [heq] at hbody
    by_cases h : chats.filter (fun c => !c.isGroup) = []
    · rw [if_pos h] at hbody
      exact absurd hbody (by simp)
    · rw [if_neg h] at hbody
      have hb : body = (chats.filter (fun c => !c.isGroup)).map
          (fun c => (⟨c.idUser, "sync"⟩ : ContactRecord)) :=
        (Option.some.inj hbody).symm
      constructor
      · intro r hr
        rw [hb] at hr
        rcases List.mem_map.mp hr with ⟨c, _, rfl⟩
        rfl
      · rw [hb, List.map_map]
        rfl

/-- Witness for C8: a roster of one group chat yields no backend call; a
roster with one group and one non-group chat yields a single POST carrying
exactly the non-group record. -/
theorem C8_roster_sync_witness :
    syncAllContacts [⟨"g1", "Group", true, 0, []⟩] = none ∧
    syncAllContacts [⟨"g1", "Group", true, 0, []⟩, ⟨"u1", "User", false, 0, []⟩] =
      some [⟨"u1", "sync"⟩] := by
  constructor
  · exact (C8_roster_sync _).1 (by decide)
  · have h := (C8_roster_sync
      [⟨"g1", "Group", true, 0, []⟩, ⟨"u1", "User", false, 0, []⟩]).2.1 (by decide)
    rw [h]
    decide

/-- JavaScript truthiness of a nullable string (`!!x`): false for null and
for the empty string. -/
def jsTruthyStr : Option String → Bool
  | none => false
  | some s => s != ""

/-- The JSON body returned by `/whatsapp-status`. -/
structure StatusResponse where
  connected : Bool
  authenticated : Bool
  hasQR : Bool
  qr : Option String
deriving DecidableEq, Repr

/-- The `/whatsapp-status` endpoint (src/unnamed/part_001 lines 145-148,
src/unnamed/part_000 lines 852-854): `hasQR` is the boolean coercion
`!!lastQrCode` of the stored QR value and `qr` is that value itself. -/
def whatsappStatus (s : WAState) : StatusResponse :=
  ⟨s.isConnected, s.isAuthenticated, jsTruthyStr s.lastQrCode, s.lastQrCode⟩

/-- C9: in every status response, `hasQR` is true iff `qr` is non-null, both
being derived from the same stored QR value.  The hypothesis records that a
stored QR value is never the empty string (it is a data-URL produced by
`QRCode.toDataURL`, and on error `null` is stored instead), which is the
only value JS truthiness would treat differently from non-nullness. -/
theorem C9_status_hasQR_iff (s : WAState) (h : s.lastQrCode ≠ some "") :
    ((whatsappStatus s).hasQR = true ↔ (whatsappStatus s).qr ≠ none) := by
  cases hq : s.lastQrCode with
  | none => simp [whatsappStatus, jsTruthyStr, hq]
  | some u =>
      rw [hq] at h
      have hu : u ≠ "" := fun he => h (by rw [he])
      simp [whatsappStatus, jsTruthyStr, hq, hu]

/-- Witness for C9 at a state holding a concrete QR data-URL. -/
theorem C9_status_hasQR_iff_witness :
    ((whatsappStatus
        ⟨false, false, false, some "data:image/png;base64,AAA", false, none,
         false, false, [], [], 0⟩).hasQR = true ↔
      (whatsappStatus
        ⟨false, false, false, some "data:image/png;base64,AAA", false, none,
         false, false, [], [], 0⟩).qr ≠ none) :=
  C9_status_hasQR_iff _ (by decide)
